import Mathlib

/-!
Shallow embedding of the printer byte-sink of `src/printer.c` (Hatari).

State fields mirror the module-level variables of the C file; the output
file is modelled as the list of bytes written so far (`output`) together
with a counter of write calls (`writes`).  The `fopen` outcome and the
`bEnablePrinting` configuration flag enter `Printer_TransferByteTo` as
explicit boolean parameters.
-/

namespace Printer

def PRINTER_TAB_SETTING : Nat := 8

def PRINTER_IDLE_CLOSE : Nat := 4 * 50

def PRINTER_BUFFER_SIZE : Nat := 2048

/-- The module-level state of printer.c.  `buffer` holds the first
`nPrinterBufferChars` cells of `PrinterBuffer`; `output` and `writes`
model the destination file: bytes written so far and number of
`Printer_EmptyFile` write calls. -/
@[ext] structure PrinterState where
  buffer : List Nat
  charsOnLine : Nat
  bConnectedPrinter : Bool
  bPrinterFile : Bool
  nIdleCount : Nat
  output : List Nat
  writes : Nat
  deriving Repr, DecidableEq

/-- All statics start zero / FALSE at program start. -/
def initialState : PrinterState :=
  { buffer := [], charsOnLine := 0, bConnectedPrinter := false,
    bPrinterFile := false, nIdleCount := 0, output := [], writes := 0 }

/-- Printer_ResetInternalBuffer: `nPrinterBufferChars = 0`. -/
def Printer_ResetInternalBuffer (s : PrinterState) : PrinterState :=
  { s with buffer := [] }

/-- Printer_ResetCharsOnLine: `nPrinterBufferCharsOnLine = 0`. -/
def Printer_ResetCharsOnLine (s : PrinterState) : PrinterState :=
  { s with charsOnLine := 0 }

/-- Printer_OpenFile: sets `bPrinterFile = TRUE`, attempts `fopen`
(outcome given by `openOk`), clears the flag on failure, returns it. -/
def Printer_OpenFile (openOk : Bool) (s : PrinterState) : PrinterState × Bool :=
  if openOk then ({ s with bPrinterFile := true }, true)
  else ({ s with bPrinterFile := false }, false)

/-- Printer_CloseFile: closes the handle if one is open. -/
def Printer_CloseFile (s : PrinterState) : PrinterState :=
  if s.bPrinterFile then { s with bPrinterFile := false } else s

/-- Printer_EmptyFile: if a file is open, `fwrite` the buffered bytes and
reset the internal buffer. -/
def Printer_EmptyFile (s : PrinterState) : PrinterState :=
  if s.bPrinterFile then
    Printer_ResetInternalBuffer
      { s with output := s.output ++ s.buffer, writes := s.writes + 1 }
  else s

/-- Printer_EmptyInternalBuffer: write bytes to file if any are waiting;
returns TRUE when the buffer was non-empty. -/
def Printer_EmptyInternalBuffer (s : PrinterState) : PrinterState × Bool :=
  if s.buffer.length > 0 then
    (if s.bPrinterFile then Printer_EmptyFile s else s, true)
  else (s, false)

/-- Printer_ValidByte: CR/LF, printable ASCII 32..126, or tab. -/
def Printer_ValidByte (b : Nat) : Bool :=
  if b = 0x0d ∨ b = 0x0a then true
  else if 32 ≤ b ∧ b < 127 then true
  else if b = 9 then true
  else false

/-- Printer_AddByteToInternalBuffer: flush when the buffer is full, append
the byte, and count it on the line unless it is CR or LF. -/
def Printer_AddByteToInternalBuffer (b : Nat) (s : PrinterState) : PrinterState :=
  let s1 := if s.buffer.length = PRINTER_BUFFER_SIZE
            then (Printer_EmptyInternalBuffer s).1 else s
  let s2 := { s1 with buffer := s1.buffer ++ [b] }
  if b = 0xd ∨ b = 0xa then s2
  else { s2 with charsOnLine := s2.charsOnLine + 1 }

/-- Printer_AddTabToInternalBuffer: flush when fewer than 8 cells remain,
then append `8 - charsOnLine % 8` spaces, counting each on the line. -/
def Printer_AddTabToInternalBuffer (s : PrinterState) : PrinterState :=
  let s1 := if s.buffer.length ≥ PRINTER_BUFFER_SIZE - PRINTER_TAB_SETTING
            then (Printer_EmptyInternalBuffer s).1 else s
  let numSpaces := PRINTER_TAB_SETTING - s1.charsOnLine % PRINTER_TAB_SETTING
  { s1 with buffer := s1.buffer ++ List.replicate numSpaces 32,
            charsOnLine := s1.charsOnLine + numSpaces }

/-- Printer_TransferByteTo: the byte-accept entry point.  `enabled` is
`ConfigureParams.Printer.bEnablePrinting`; `openOk` is the `fopen`
outcome used when a connection must be established. -/
def Printer_TransferByteTo (enabled openOk : Bool) (b : Nat)
    (s : PrinterState) : PrinterState × Bool :=
  if !enabled then (s, false)
  else
    let s1 :=
      if !s.bConnectedPrinter then
        let p := Printer_OpenFile openOk s
        Printer_ResetCharsOnLine (Printer_ResetInternalBuffer
          { p.1 with bConnectedPrinter := p.2 })
      else s
    if s1.bConnectedPrinter then
      let s2 :=
        if Printer_ValidByte b then
          let sa := if b = 9 then Printer_AddTabToInternalBuffer s1
                    else Printer_AddByteToInternalBuffer b s1
          if b = 0xd then { sa with charsOnLine := 0 } else sa
        else s1
      (s2, true)
    else (s1, false)

/-- Printer_CloseAllConnections: flush, close the file, drop the
connection flag. -/
def Printer_CloseAllConnections (s : PrinterState) : PrinterState :=
  { Printer_CloseFile (Printer_EmptyInternalBuffer s).1 with
      bConnectedPrinter := false }

/-- Printer_CheckIdleStatus: flush if bytes are waiting (zeroing the idle
count), else count an idle tick and close everything after
`PRINTER_IDLE_CLOSE` consecutive idle ticks. -/
def Printer_CheckIdleStatus (s : PrinterState) : PrinterState :=
  let p := Printer_EmptyInternalBuffer s
  if p.2 then { p.1 with nIdleCount := 0 }
  else
    let s2 := { p.1 with nIdleCount := p.1.nIdleCount + 1 }
    if s2.nIdleCount ≥ PRINTER_IDLE_CLOSE then
      { Printer_CloseAllConnections s2 with nIdleCount := 0 }
    else s2

/-- Iterated idle checks: `ticks n` applies `Printer_CheckIdleStatus`
`n` times. -/
def ticks : Nat → PrinterState → PrinterState
  | 0, s => s
  | n + 1, s => ticks n (Printer_CheckIdleStatus s)

/-- Accept a whole byte list (printing enabled, opens succeed). -/
def acceptBytes (bs : List Nat) (s : PrinterState) : PrinterState :=
  bs.foldl (fun t b => (Printer_TransferByteTo true true b t).1) s

/-- The public operations of the sink, as invoked by the rest of the
emulator: byte transfer (with its per-call configuration flag and fopen
outcome), the periodic idle check, explicit flush, explicit close, and
the buffer-only reset. -/
inductive Op where
  | accept (enabled openOk : Bool) (b : Nat)
  | tick
  | flush
  | close
  | reset
  deriving Repr, DecidableEq

def applyOp (op : Op) (s : PrinterState) : PrinterState :=
  match op with
  | .accept e o b => (Printer_TransferByteTo e o b s).1
  | .tick => Printer_CheckIdleStatus s
  | .flush => (Printer_EmptyInternalBuffer s).1
  | .close => Printer_CloseAllConnections s
  | .reset => Printer_ResetCharsOnLine (Printer_ResetInternalBuffer s)

def runOps (ops : List Op) (s : PrinterState) : PrinterState :=
  ops.foldl (fun t op => applyOp op t) s

/-- The inductive invariant of the sink: the connection flag mirrors the
file flag, the buffer is empty while disconnected, and the buffer never
holds more than PRINTER_BUFFER_SIZE bytes. -/
def PrinterInv (s : PrinterState) : Prop :=
  s.bConnectedPrinter = s.bPrinterFile ∧
  (s.bConnectedPrinter = false → s.buffer = []) ∧
  s.buffer.length ≤ PRINTER_BUFFER_SIZE

/-- Concrete connected state sitting exactly on a tab stop
(charsOnLine = 8) with an empty buffer. -/
def tabState8 : PrinterState :=
  { buffer := [], charsOnLine := 8, bConnectedPrinter := true,
    bPrinterFile := true, nIdleCount := 0, output := [], writes := 0 }

/-- Concrete connected state whose buffer holds exactly
`PRINTER_BUFFER_SIZE - PRINTER_TAB_SETTING = 2040` bytes. -/
def tabState2040 : PrinterState :=
  { buffer := List.replicate 2040 65, charsOnLine := 0,
    bConnectedPrinter := true, bPrinterFile := true, nIdleCount := 0,
    output := [], writes := 0 }

/-- Concrete connected state with a small non-empty buffer. -/
def smallState : PrinterState :=
  { buffer := [65], charsOnLine := 2, bConnectedPrinter := true,
    bPrinterFile := true, nIdleCount := 3, output := [70], writes := 1 }

/-- Concrete freshly-connected state with an empty buffer and empty
output. -/
def c5start : PrinterState :=
  { buffer := [], charsOnLine := 0, bConnectedPrinter := true,
    bPrinterFile := true, nIdleCount := 0, output := [], writes := 0 }

/-! ### Helper lemmas -/

lemma validByte_printable {b : Nat} (h1 : 32 ≤ b) (h2 : b < 127) :
    Printer_ValidByte b = true := by
  unfold Printer_ValidByte
  split_ifs <;> simp_all

lemma emptyFile_idle (s : PrinterState) :
    (Printer_EmptyFile s).nIdleCount = s.nIdleCount := by
  unfold Printer_EmptyFile Printer_ResetInternalBuffer
  split <;> rfl

lemma emptyInternal_idle (s : PrinterState) :
    ((Printer_EmptyInternalBuffer s).1).nIdleCount = s.nIdleCount := by
  unfold Printer_EmptyInternalBuffer
  split_ifs <;> simp [emptyFile_idle]

lemma addByte_idle (b : Nat) (s : PrinterState) :
    (Printer_AddByteToInternalBuffer b s).nIdleCount = s.nIdleCount := by
  unfold Printer_AddByteToInternalBuffer
  split_ifs <;> simp [emptyInternal_idle]

lemma addTab_idle (s : PrinterState) :
    (Printer_AddTabToInternalBuffer s).nIdleCount = s.nIdleCount := by
  unfold Printer_AddTabToInternalBuffer
  split_ifs <;> simp [emptyInternal_idle]

lemma transfer_connected (o : Bool) (b : Nat) (s : PrinterState)
    (hc : s.bConnectedPrinter = true) :
    Printer_TransferByteTo true o b s =
      ((if Printer_ValidByte b then
          (let sa := if b = 9 then Printer_AddTabToInternalBuffer s
                     else Printer_AddByteToInternalBuffer b s
           if b = 0xd then { sa with charsOnLine := 0 } else sa)
        else s), true) := by
  unfold Printer_TransferByteTo
  simp [hc]

/-- Net effect of accepting a tab while connected with an open file:
pre-emptive flush exactly when at most 8 free cells remain, then the
spaces are appended and counted. -/
lemma tab_step (o : Bool) (s : PrinterState)
    (hc : s.bConnectedPrinter = true) (hf : s.bPrinterFile = true) :
    (Printer_TransferByteTo true o 9 s).1 =
      if s.buffer.length ≥ PRINTER_BUFFER_SIZE - PRINTER_TAB_SETTING then
        { s with
            buffer := List.replicate
              (PRINTER_TAB_SETTING - s.charsOnLine % PRINTER_TAB_SETTING) 32,
            charsOnLine := s.charsOnLine +
              (PRINTER_TAB_SETTING - s.charsOnLine % PRINTER_TAB_SETTING),
            output := s.output ++ s.buffer,
            writes := s.writes + 1 }
      else
        { s with
            buffer := s.buffer ++ List.replicate
              (PRINTER_TAB_SETTING - s.charsOnLine % PRINTER_TAB_SETTING) 32,
            charsOnLine := s.charsOnLine +
              (PRINTER_TAB_SETTING - s.charsOnLine % PRINTER_TAB_SETTING) } := by
  rw [transfer_connected o 9 s hc]
  have hv : Printer_ValidByte 9 = true := by decide
  simp only [hv, if_true]
  norm_num
  unfold Printer_AddTabToInternalBuffer Printer_EmptyInternalBuffer
    Printer_EmptyFile Printer_ResetInternalBuffer
    PRINTER_BUFFER_SIZE PRINTER_TAB_SETTING
  split_ifs with h1 h2
  all_goals simp_all
  all_goals omega

/-- Net effect of Printer_AddByteToInternalBuffer when a file is open:
flush exactly when the buffer is full, append the byte, count it on the
line unless it is CR or LF. -/
lemma addByte_step (b : Nat) (s : PrinterState) (hf : s.bPrinterFile = true) :
    Printer_AddByteToInternalBuffer b s =
      (let s1 :=
         if s.buffer.length = PRINTER_BUFFER_SIZE then
           { s with
               buffer := ([] : List Nat),
               output := s.output ++ s.buffer,
               writes := s.writes + 1 }
         else s
       let s2 := { s1 with buffer := s1.buffer ++ [b] }
       if b = 0xd ∨ b = 0xa then s2
       else { s2 with charsOnLine := s2.charsOnLine + 1 }) := by
  unfold Printer_AddByteToInternalBuffer Printer_EmptyInternalBuffer
    Printer_EmptyFile Printer_ResetInternalBuffer PRINTER_BUFFER_SIZE
  split_ifs with h1 h2 h3
  all_goals simp_all

lemma acceptBytes_nil (s : PrinterState) : acceptBytes [] s = s := rfl

lemma acceptBytes_cons (b : Nat) (bs : List Nat) (s : PrinterState) :
    acceptBytes (b :: bs) s
      = acceptBytes bs ((Printer_TransferByteTo true true b s).1) := rfl

lemma acceptBytes_append (xs ys : List Nat) (s : PrinterState) :
    acceptBytes (xs ++ ys) s = acceptBytes ys (acceptBytes xs s) := by
  unfold acceptBytes
  exact List.foldl_append ..

/-- Accepting a printable byte while connected with room left appends it
and counts it. -/
lemma accept_printable_nofull (o : Bool) (b : Nat) (s : PrinterState)
    (hb1 : 32 ≤ b) (hb2 : b < 127)
    (hc : s.bConnectedPrinter = true) (hf : s.bPrinterFile = true)
    (hlen : s.buffer.length < PRINTER_BUFFER_SIZE) :
    (Printer_TransferByteTo true o b s).1
      = { s with buffer := s.buffer ++ [b],
                 charsOnLine := s.charsOnLine + 1 } := by
  rw [transfer_connected o b s hc]
  simp only [validByte_printable hb1 hb2, if_true]
  rw [if_neg (show ¬(b = 9) by omega), if_neg (show ¬(b = 0xd) by omega),
      addByte_step b s hf]
  simp only [if_neg (Nat.ne_of_lt hlen),
    if_neg (show ¬(b = 0xd ∨ b = 0xa) by omega)]

/-- Accepting a printable byte while connected with a full buffer
flushes once, then appends. -/
lemma accept_printable_full (o : Bool) (b : Nat) (s : PrinterState)
    (hb1 : 32 ≤ b) (hb2 : b < 127)
    (hc : s.bConnectedPrinter = true) (hf : s.bPrinterFile = true)
    (hlen : s.buffer.length = PRINTER_BUFFER_SIZE) :
    (Printer_TransferByteTo true o b s).1
      = { s with buffer := [b], charsOnLine := s.charsOnLine + 1,
                 output := s.output ++ s.buffer,
                 writes := s.writes + 1 } := by
  rw [transfer_connected o b s hc]
  simp only [validByte_printable hb1 hb2, if_true]
  rw [if_neg (show ¬(b = 9) by omega), if_neg (show ¬(b = 0xd) by omega),
      addByte_step b s hf]
  simp only [if_pos hlen, if_neg (show ¬(b = 0xd ∨ b = 0xa) by omega)]
  simp

/-- Accepting a printable run that fits in the remaining room appends it
verbatim with no write. -/
lemma acceptBytes_fill (bs : List Nat) : ∀ (s : PrinterState),
    s.bConnectedPrinter = true → s.bPrinterFile = true →
    (∀ b ∈ bs, 32 ≤ b ∧ b < 127) →
    s.buffer.length + bs.length ≤ PRINTER_BUFFER_SIZE →
    acceptBytes bs s
      = { s with buffer := s.buffer ++ bs,
                 charsOnLine := s.charsOnLine + bs.length } := by
  induction bs with
  | nil => intro s hc hf hall hlen; simp [acceptBytes_nil]
  | cons b rest ih =>
    intro s hc hf hall hlen
    rw [acceptBytes_cons,
        accept_printable_nofull true b s (hall b (by simp)).1
          (hall b (by simp)).2 hc hf (by simp at hlen; omega),
        ih { s with buffer := s.buffer ++ [b],
                    charsOnLine := s.charsOnLine + 1 }
          hc hf (fun x hx => hall x (by simp [hx]))
          (by simp at hlen ⊢; omega)]
    simp
    omega

lemma ticks_add (a b : Nat) : ∀ (s : PrinterState),
    ticks (a + b) s = ticks b (ticks a s) := by
  induction a with
  | zero => intro s; simp [ticks]
  | succ n ih =>
    intro s
    rw [show n + 1 + b = (n + b) + 1 by omega]
    exact ih (Printer_CheckIdleStatus s)

/-- An idle check with bytes waiting and a file open flushes and zeroes
the idle count. -/
lemma tick_nonempty (s : PrinterState) (hf : s.bPrinterFile = true)
    (hb : s.buffer ≠ []) :
    Printer_CheckIdleStatus s
      = { s with buffer := [], output := s.output ++ s.buffer,
                 writes := s.writes + 1, nIdleCount := 0 } := by
  have hlen : s.buffer.length > 0 := List.length_pos.mpr hb
  unfold Printer_CheckIdleStatus Printer_EmptyInternalBuffer
    Printer_EmptyFile Printer_ResetInternalBuffer
  split_ifs
  all_goals simp_all

/-- An idle check on an empty buffer below the threshold only counts. -/
lemma tick_empty_low (s : PrinterState) (hb : s.buffer = [])
    (hi : s.nIdleCount + 1 < PRINTER_IDLE_CLOSE) :
    Printer_CheckIdleStatus s = { s with nIdleCount := s.nIdleCount + 1 } := by
  unfold Printer_CheckIdleStatus Printer_EmptyInternalBuffer
    Printer_EmptyFile Printer_ResetInternalBuffer
  split_ifs <;> simp_all

/-- An idle check on an empty buffer that reaches the threshold closes
the connection and zeroes the idle count. -/
lemma tick_empty_close (s : PrinterState) (hb : s.buffer = [])
    (hi : s.nIdleCount + 1 ≥ PRINTER_IDLE_CLOSE) :
    Printer_CheckIdleStatus s
      = { s with bConnectedPrinter := false, bPrinterFile := false,
                 nIdleCount := 0 } := by
  unfold Printer_CheckIdleStatus Printer_CloseAllConnections
    Printer_CloseFile Printer_EmptyInternalBuffer
    Printer_EmptyFile Printer_ResetInternalBuffer
  split_ifs
  all_goals simp_all
  all_goals split_ifs
  all_goals simp_all

/-- Repeated idle checks on an empty buffer strictly below the threshold
only accumulate the idle count. -/
lemma ticks_under_threshold (n : Nat) : ∀ (s : PrinterState),
    s.buffer = [] → s.nIdleCount + n < PRINTER_IDLE_CLOSE →
    ticks n s = { s with nIdleCount := s.nIdleCount + n } := by
  induction n with
  | zero => intro s hb hi; simp [ticks]
  | succ n ih =>
    intro s hb hi
    rw [show ticks (n + 1) s = ticks n (Printer_CheckIdleStatus s) from rfl,
        tick_empty_low s hb (by omega),
        ih { s with nIdleCount := s.nIdleCount + 1 } hb (by simpa using by omega)]
    simp
    omega

/-- Accepting a byte while disconnected (printing enabled, fopen
succeeding) behaves like accepting it in the freshly-connected state
with cleared buffer and line count. -/
lemma transfer_connect (b : Nat) (s : PrinterState)
    (hd : s.bConnectedPrinter = false) :
    Printer_TransferByteTo true true b s
      = Printer_TransferByteTo true true b
          { s with buffer := [], charsOnLine := 0,
                   bConnectedPrinter := true, bPrinterFile := true } := by
  unfold Printer_TransferByteTo Printer_OpenFile
    Printer_ResetCharsOnLine Printer_ResetInternalBuffer
  simp [hd]

/-- A valid byte accepted while disconnected establishes the connection
and leaves a non-empty buffer. -/
lemma connect_valid_props (b : Nat) (s : PrinterState)
    (hd : s.bConnectedPrinter = false) (hv : Printer_ValidByte b = true) :
    ((Printer_TransferByteTo true true b s).1).bConnectedPrinter = true ∧
    ((Printer_TransferByteTo true true b s).1).bPrinterFile = true ∧
    ((Printer_TransferByteTo true true b s).1).buffer ≠ [] := by
  rw [transfer_connect b s hd]
  by_cases h9 : b = 9
  · subst h9
    rw [tab_step true _ rfl rfl]
    refine ⟨?_, ?_, ?_⟩
    all_goals simp [PRINTER_BUFFER_SIZE, PRINTER_TAB_SETTING]
  · rw [transfer_connected true b _ rfl]
    simp only [hv, if_true, if_neg h9]
    rw [addByte_step b _ rfl]
    split_ifs
    all_goals exact ⟨rfl, rfl, by simp⟩

/-- Accepting a byte while disconnected with a failing fopen clears the
buffer and line count and stays disconnected. -/
lemma transfer_connect_fail (b : Nat) (s : PrinterState)
    (hd : s.bConnectedPrinter = false) :
    Printer_TransferByteTo true false b s
      = ({ s with buffer := [], charsOnLine := 0,
                  bConnectedPrinter := false, bPrinterFile := false },
         false) := by
  unfold Printer_TransferByteTo Printer_OpenFile
    Printer_ResetCharsOnLine Printer_ResetInternalBuffer
  simp [hd]

lemma inv_initial : PrinterInv initialState :=
  ⟨rfl, fun _ => rfl, by simp [initialState, PRINTER_BUFFER_SIZE]⟩

lemma inv_accept_connected (o : Bool) (b : Nat) (s : PrinterState)
    (hc : s.bConnectedPrinter = true) (hf : s.bPrinterFile = true)
    (h3 : s.buffer.length ≤ PRINTER_BUFFER_SIZE) :
    PrinterInv ((Printer_TransferByteTo true o b s).1) := by
  unfold PRINTER_BUFFER_SIZE at h3
  by_cases hvb : Printer_ValidByte b = true
  · by_cases h9 : b = 9
    · subst h9
      rw [tab_step o s hc hf]
      unfold PrinterInv PRINTER_BUFFER_SIZE PRINTER_TAB_SETTING
      split_ifs with hlen
      all_goals refine ⟨hc.trans hf.symm, ?_, ?_⟩
      all_goals simp [hc]
      all_goals omega
    · rw [transfer_connected o b s hc]
      simp only [hvb, if_true, if_neg h9]
      rw [addByte_step b s hf]
      unfold PrinterInv PRINTER_BUFFER_SIZE
      split_ifs
      all_goals refine ⟨hc.trans hf.symm, ?_, ?_⟩
      all_goals simp [hc]
      all_goals omega
  · rw [transfer_connected o b s hc]
    have hvb' : Printer_ValidByte b = false := by simpa using hvb
    simp only [hvb', Bool.false_eq_true, if_false]
    exact ⟨hc.trans hf.symm, by simp [hc],
      by unfold PRINTER_BUFFER_SIZE; exact h3⟩

lemma inv_accept (e o : Bool) (b : Nat) (s : PrinterState)
    (h : PrinterInv s) :
    PrinterInv ((Printer_TransferByteTo e o b s).1) := by
  obtain ⟨h1, h2, h3⟩ := h
  cases e
  · exact ⟨h1, h2, h3⟩
  · by_cases hc : s.bConnectedPrinter = true
    · exact inv_accept_connected o b s hc (h1.symm.trans hc) h3
    · have hd : s.bConnectedPrinter = false := by simpa using hc
      cases o
      · rw [transfer_connect_fail b s hd]
        exact ⟨rfl, fun _ => rfl, by simp [PRINTER_BUFFER_SIZE]⟩
      · rw [transfer_connect b s hd]
        exact inv_accept_connected true b _ rfl rfl
          (by simp [PRINTER_BUFFER_SIZE])

lemma inv_tick (s : PrinterState) (h : PrinterInv s) :
    PrinterInv (Printer_CheckIdleStatus s) := by
  obtain ⟨h1, h2, h3⟩ := h
  unfold PRINTER_BUFFER_SIZE at h3
  unfold PrinterInv Printer_CheckIdleStatus Printer_CloseAllConnections
    Printer_CloseFile Printer_EmptyInternalBuffer Printer_EmptyFile
    Printer_ResetInternalBuffer PRINTER_BUFFER_SIZE PRINTER_IDLE_CLOSE
  split_ifs
  all_goals simp_all
  all_goals split_ifs
  all_goals simp_all

lemma inv_flush (s : PrinterState) (h : PrinterInv s) :
    PrinterInv ((Printer_EmptyInternalBuffer s).1) := by
  obtain ⟨h1, h2, h3⟩ := h
  unfold PRINTER_BUFFER_SIZE at h3
  unfold PrinterInv Printer_EmptyInternalBuffer Printer_EmptyFile
    Printer_ResetInternalBuffer PRINTER_BUFFER_SIZE
  split_ifs
  all_goals simp_all

lemma inv_close (s : PrinterState) (h : PrinterInv s) :
    PrinterInv (Printer_CloseAllConnections s) := by
  obtain ⟨h1, h2, h3⟩ := h
  unfold PRINTER_BUFFER_SIZE at h3
  unfold PrinterInv Printer_CloseAllConnections Printer_CloseFile
    Printer_EmptyInternalBuffer Printer_EmptyFile
    Printer_ResetInternalBuffer PRINTER_BUFFER_SIZE
  split_ifs
  all_goals simp_all

lemma inv_reset (s : PrinterState) (h : PrinterInv s) :
    PrinterInv (Printer_ResetCharsOnLine (Printer_ResetInternalBuffer s)) :=
  ⟨h.1, fun _ => rfl,
    by simp [Printer_ResetCharsOnLine, Printer_ResetInternalBuffer,
             PRINTER_BUFFER_SIZE]⟩

lemma inv_applyOp (op : Op) (s : PrinterState) (h : PrinterInv s) :
    PrinterInv (applyOp op s) := by
  cases op with
  | accept e o b => exact inv_accept e o b s h
  | tick => exact inv_tick s h
  | flush => exact inv_flush s h
  | close => exact inv_close s h
  | reset => exact inv_reset s h

lemma inv_runOps (ops : List Op) : ∀ (s : PrinterState),
    PrinterInv s → PrinterInv (runOps ops s) := by
  induction ops with
  | nil => intro s h; exact h
  | cons op rest ih => intro s h; exact ih _ (inv_applyOp op s h)

/-! ### Claim theorems -/

/-- C3: accepting a tab while connected appends exactly
`8 - charsOnLine % 8` space bytes — a count always between 1 and 8 —
to the (possibly pre-flushed) buffer, and advances charsOnLine by one
per inserted space; in particular charsOnLine 0 gives 8 spaces ending at
8, charsOnLine 3 gives 5 spaces ending at 8, and charsOnLine 8 gives 8
spaces, not zero. -/
theorem C3_tab_expansion (o : Bool) (s : PrinterState)
    (hc : s.bConnectedPrinter = true) (hf : s.bPrinterFile = true) :
    1 ≤ PRINTER_TAB_SETTING - s.charsOnLine % PRINTER_TAB_SETTING ∧
    PRINTER_TAB_SETTING - s.charsOnLine % PRINTER_TAB_SETTING ≤ 8 ∧
    ((Printer_TransferByteTo true o 9 s).1).buffer
      = (if s.buffer.length ≥ PRINTER_BUFFER_SIZE - PRINTER_TAB_SETTING
         then ([] : List Nat) else s.buffer)
        ++ List.replicate
            (PRINTER_TAB_SETTING - s.charsOnLine % PRINTER_TAB_SETTING) 32 ∧
    ((Printer_TransferByteTo true o 9 s).1).charsOnLine
      = s.charsOnLine +
          (PRINTER_TAB_SETTING - s.charsOnLine % PRINTER_TAB_SETTING) := by
  rw [tab_step o s hc hf]
  unfold PRINTER_TAB_SETTING PRINTER_BUFFER_SIZE
  split_ifs with h
  · exact ⟨by omega, by omega, by simp, rfl⟩
  · exact ⟨by omega, by omega, by simp, rfl⟩

/-- C3 witness: at charsOnLine = 8 (a full tab stop) the tab appends 8
spaces, not zero, and charsOnLine moves to 16. -/
theorem C3_tab_expansion_witness :
    tabState8.bConnectedPrinter = true ∧ tabState8.bPrinterFile = true ∧
    (1 ≤ PRINTER_TAB_SETTING
          - tabState8.charsOnLine % PRINTER_TAB_SETTING ∧
     PRINTER_TAB_SETTING - tabState8.charsOnLine % PRINTER_TAB_SETTING ≤ 8 ∧
     ((Printer_TransferByteTo true true 9 tabState8).1).buffer
       = (if tabState8.buffer.length
             ≥ PRINTER_BUFFER_SIZE - PRINTER_TAB_SETTING
          then ([] : List Nat) else tabState8.buffer)
         ++ List.replicate
             (PRINTER_TAB_SETTING
               - tabState8.charsOnLine % PRINTER_TAB_SETTING) 32 ∧
     ((Printer_TransferByteTo true true 9 tabState8).1).charsOnLine
       = tabState8.charsOnLine +
           (PRINTER_TAB_SETTING
             - tabState8.charsOnLine % PRINTER_TAB_SETTING)) :=
  ⟨rfl, rfl, C3_tab_expansion true tabState8 rfl rfl⟩

/-- C1 counterexample: at bufferLength exactly 2040 = capacity − 8 the
claim says no flush occurs before the spaces, but the code (which tests
`>=`, not `>`) performs one write and leaves only the 8 fresh spaces in
the buffer. -/
theorem C1_counterexample :
    ((Printer_TransferByteTo true true 9 tabState2040).1).writes = 1 ∧
    ((Printer_TransferByteTo true true 9 tabState2040).1).buffer.length = 8 := by
  rw [tab_step true tabState2040 rfl rfl]
  rw [if_pos]
  · constructor
    · rfl
    · rw [List.length_replicate]
      norm_num [tabState2040, PRINTER_TAB_SETTING]
  · show tabState2040.buffer.length ≥ _
    rw [show tabState2040.buffer.length = 2040 from List.length_replicate ..]
    norm_num [PRINTER_BUFFER_SIZE, PRINTER_TAB_SETTING]

/-- C1 (amended): when acceptByte processes a tab while connected, a
pre-emptive flush happens if and only if bufferLength ≥ capacity − 8
(that is, ≥ 2040); at bufferLength exactly capacity − 8 a flush does
occur before the spaces are inserted. -/
theorem C1_tab_preflush_threshold (o : Bool) (s : PrinterState)
    (hc : s.bConnectedPrinter = true) (hf : s.bPrinterFile = true) :
    (((Printer_TransferByteTo true o 9 s).1).writes = s.writes + 1 ↔
       s.buffer.length ≥ PRINTER_BUFFER_SIZE - PRINTER_TAB_SETTING) ∧
    (((Printer_TransferByteTo true o 9 s).1).writes = s.writes ↔
       s.buffer.length < PRINTER_BUFFER_SIZE - PRINTER_TAB_SETTING) ∧
    (s.buffer.length = PRINTER_BUFFER_SIZE - PRINTER_TAB_SETTING →
       ((Printer_TransferByteTo true o 9 s).1).buffer
         = List.replicate
             (PRINTER_TAB_SETTING - s.charsOnLine % PRINTER_TAB_SETTING) 32) := by
  rw [tab_step o s hc hf]
  unfold PRINTER_BUFFER_SIZE PRINTER_TAB_SETTING
  split_ifs with h
  · refine ⟨?_, ?_, fun _ => rfl⟩
    all_goals simp
    all_goals omega
  · refine ⟨?_, ?_, fun h2 => absurd h2.ge h⟩
    all_goals simp
    all_goals omega

/-- C1 witness: the amended threshold rule evaluated at the concrete
2040-byte buffer state. -/
theorem C1_tab_preflush_threshold_witness :
    tabState2040.bConnectedPrinter = true ∧
    tabState2040.bPrinterFile = true ∧
    ((((Printer_TransferByteTo true true 9 tabState2040).1).writes
        = tabState2040.writes + 1 ↔
       tabState2040.buffer.length
         ≥ PRINTER_BUFFER_SIZE - PRINTER_TAB_SETTING) ∧
     (((Printer_TransferByteTo true true 9 tabState2040).1).writes
        = tabState2040.writes ↔
       tabState2040.buffer.length
         < PRINTER_BUFFER_SIZE - PRINTER_TAB_SETTING) ∧
     (tabState2040.buffer.length = PRINTER_BUFFER_SIZE - PRINTER_TAB_SETTING →
       ((Printer_TransferByteTo true true 9 tabState2040).1).buffer
         = List.replicate
             (PRINTER_TAB_SETTING
               - tabState2040.charsOnLine % PRINTER_TAB_SETTING) 32)) :=
  ⟨rfl, rfl, C1_tab_preflush_threshold true tabState2040 rfl rfl⟩

/-- C6: while connected, a CR, LF or printable byte is accepted (result
TRUE) and appended as exactly one byte — preceded by exactly one flush
when the buffer was full; CR additionally resets charsOnLine to 0 and a
printable byte increments it by one. -/
theorem C6_valid_byte_append (o : Bool) (b : Nat) (s : PrinterState)
    (hb : b = 0x0d ∨ b = 0x0a ∨ (32 ≤ b ∧ b < 127))
    (hc : s.bConnectedPrinter = true) (hf : s.bPrinterFile = true) :
    (Printer_TransferByteTo true o b s).2 = true ∧
    (s.buffer.length < PRINTER_BUFFER_SIZE →
      ((Printer_TransferByteTo true o b s).1).buffer = s.buffer ++ [b] ∧
      ((Printer_TransferByteTo true o b s).1).writes = s.writes) ∧
    (s.buffer.length = PRINTER_BUFFER_SIZE →
      ((Printer_TransferByteTo true o b s).1).buffer = [b] ∧
      ((Printer_TransferByteTo true o b s).1).writes = s.writes + 1) ∧
    (b = 0x0d → ((Printer_TransferByteTo true o b s).1).charsOnLine = 0) ∧
    (32 ≤ b → b < 127 →
      ((Printer_TransferByteTo true o b s).1).charsOnLine
        = s.charsOnLine + 1) := by
  have hv : Printer_ValidByte b = true := by
    rcases hb with h | h | h
    · subst h; decide
    · subst h; decide
    · exact validByte_printable h.1 h.2
  have h9 : ¬(b = 9) := by rcases hb with h | h | h <;> omega
  rw [transfer_connected o b s hc]
  simp only [hv, if_true, if_neg h9]
  rw [addByte_step b s hf]
  split_ifs with hfull hcrlf hcr hcrlf hcr
  all_goals refine ⟨by trivial, ?_, ?_, ?_, ?_⟩
  all_goals intros
  all_goals simp_all

/-- C6 witness: the printable byte 66 accepted in a concrete connected
state with a one-byte buffer. -/
theorem C6_valid_byte_append_witness :
    ((66 : Nat) = 0x0d ∨ (66 : Nat) = 0x0a ∨ (32 ≤ (66 : Nat) ∧ (66 : Nat) < 127)) ∧
    ((Printer_TransferByteTo true true 66 smallState).2 = true ∧
     (smallState.buffer.length < PRINTER_BUFFER_SIZE →
       ((Printer_TransferByteTo true true 66 smallState).1).buffer
         = smallState.buffer ++ [66] ∧
       ((Printer_TransferByteTo true true 66 smallState).1).writes
         = smallState.writes) ∧
     (smallState.buffer.length = PRINTER_BUFFER_SIZE →
       ((Printer_TransferByteTo true true 66 smallState).1).buffer = [66] ∧
       ((Printer_TransferByteTo true true 66 smallState).1).writes
         = smallState.writes + 1) ∧
     ((66 : Nat) = 0x0d →
       ((Printer_TransferByteTo true true 66 smallState).1).charsOnLine = 0) ∧
     (32 ≤ (66 : Nat) → (66 : Nat) < 127 →
       ((Printer_TransferByteTo true true 66 smallState).1).charsOnLine
         = smallState.charsOnLine + 1)) :=
  ⟨by norm_num, C6_valid_byte_append true 66 smallState (by norm_num) rfl rfl⟩

/-- C7: while connected, a byte outside CR, LF, tab and printable ASCII
is accepted (result TRUE) but silently discarded: the whole state — in
particular buffer contents, buffer length and charsOnLine — is
unchanged. -/
theorem C7_invalid_byte_dropped (o : Bool) (b : Nat) (s : PrinterState)
    (hb : ¬(b = 0x0d ∨ b = 0x0a ∨ b = 9 ∨ (32 ≤ b ∧ b < 127)))
    (hc : s.bConnectedPrinter = true) :
    (Printer_TransferByteTo true o b s).2 = true ∧
    (Printer_TransferByteTo true o b s).1 = s ∧
    ((Printer_TransferByteTo true o b s).1).buffer = s.buffer ∧
    ((Printer_TransferByteTo true o b s).1).buffer.length
      = s.buffer.length ∧
    ((Printer_TransferByteTo true o b s).1).charsOnLine
      = s.charsOnLine := by
  have hv : Printer_ValidByte b = false := by
    push_neg at hb
    unfold Printer_ValidByte
    split_ifs
    all_goals simp_all
    all_goals omega
  rw [transfer_connected o b s hc]
  simp [hv]

/-- C7 witness: the bell byte 0x07 is dropped in a concrete connected
state. -/
theorem C7_invalid_byte_dropped_witness :
    ¬((7 : Nat) = 0x0d ∨ (7 : Nat) = 0x0a ∨ (7 : Nat) = 9 ∨
        (32 ≤ (7 : Nat) ∧ (7 : Nat) < 127)) ∧
    ((Printer_TransferByteTo true true 7 smallState).2 = true ∧
     (Printer_TransferByteTo true true 7 smallState).1 = smallState ∧
     ((Printer_TransferByteTo true true 7 smallState).1).buffer
       = smallState.buffer ∧
     ((Printer_TransferByteTo true true 7 smallState).1).buffer.length
       = smallState.buffer.length ∧
     ((Printer_TransferByteTo true true 7 smallState).1).charsOnLine
       = smallState.charsOnLine) :=
  ⟨by decide, C7_invalid_byte_dropped true 7 smallState (by decide) rfl⟩

/-- C5: from a connected state with an empty buffer, accepting
capacity + 1 = 2049 printable bytes performs no write during the first
2048 accepts (they only fill the buffer), and the 2049th accept performs
exactly one flush: the destination receives the first 2048 bytes and the
final byte is then the sole content of the buffer. -/
theorem C5_buffer_full_single_flush (bs : List Nat) (s : PrinterState)
    (hc : s.bConnectedPrinter = true) (hf : s.bPrinterFile = true)
    (hb : s.buffer = [])
    (hall : ∀ b ∈ bs, 32 ≤ b ∧ b < 127)
    (hlen : bs.length = PRINTER_BUFFER_SIZE + 1) :
    (acceptBytes (bs.take PRINTER_BUFFER_SIZE) s).writes = s.writes ∧
    (acceptBytes (bs.take PRINTER_BUFFER_SIZE) s).output = s.output ∧
    (acceptBytes (bs.take PRINTER_BUFFER_SIZE) s).buffer
      = bs.take PRINTER_BUFFER_SIZE ∧
    (acceptBytes bs s).writes = s.writes + 1 ∧
    (acceptBytes bs s).output = s.output ++ bs.take PRINTER_BUFFER_SIZE ∧
    (acceptBytes bs s).buffer = bs.drop PRINTER_BUFFER_SIZE := by
  have htlen : (bs.take PRINTER_BUFFER_SIZE).length = PRINTER_BUFFER_SIZE := by
    rw [List.length_take]
    omega
  have hfill := acceptBytes_fill (bs.take PRINTER_BUFFER_SIZE) s hc hf
    (fun x hx => hall x (List.mem_of_mem_take hx))
    (by rw [hb, htlen]; simp)
  rw [hb, List.nil_append] at hfill
  have hdlen : (bs.drop PRINTER_BUFFER_SIZE).length = 1 := by
    rw [List.length_drop]
    omega
  obtain ⟨c, hdc⟩ := List.length_eq_one.mp hdlen
  have hcmem : c ∈ bs := by
    have : c ∈ bs.drop PRINTER_BUFFER_SIZE := by rw [hdc]; simp
    exact List.mem_of_mem_drop this
  have hrun : acceptBytes bs s
      = (Printer_TransferByteTo true true c (acceptBytes
          (bs.take PRINTER_BUFFER_SIZE) s)).1 := by
    conv_lhs => rw [← List.take_append_drop PRINTER_BUFFER_SIZE bs, hdc]
    rw [acceptBytes_append]
    rfl
  have hfullstep := accept_printable_full true c
    (acceptBytes (bs.take PRINTER_BUFFER_SIZE) s)
    (hall c hcmem).1 (hall c hcmem).2
    (by rw [hfill]; exact hc) (by rw [hfill]; exact hf)
    (by rw [hfill]; exact htlen)
  refine ⟨by rw [hfill], by rw [hfill], by rw [hfill], ?_, ?_, ?_⟩
  · rw [hrun, hfullstep, hfill]
  · rw [hrun, hfullstep, hfill]
  · rw [hrun, hfullstep, hfill, hdc]

/-- C5 witness: 2049 copies of the printable byte 65 from the fresh
connected state. -/
theorem C5_buffer_full_single_flush_witness :
    c5start.bConnectedPrinter = true ∧ c5start.buffer = [] ∧
    ((acceptBytes ((List.replicate (PRINTER_BUFFER_SIZE + 1) 65).take
        PRINTER_BUFFER_SIZE) c5start).writes = c5start.writes ∧
     (acceptBytes ((List.replicate (PRINTER_BUFFER_SIZE + 1) 65).take
        PRINTER_BUFFER_SIZE) c5start).output = c5start.output ∧
     (acceptBytes ((List.replicate (PRINTER_BUFFER_SIZE + 1) 65).take
        PRINTER_BUFFER_SIZE) c5start).buffer
       = (List.replicate (PRINTER_BUFFER_SIZE + 1) 65).take
           PRINTER_BUFFER_SIZE ∧
     (acceptBytes (List.replicate (PRINTER_BUFFER_SIZE + 1) 65)
        c5start).writes = c5start.writes + 1 ∧
     (acceptBytes (List.replicate (PRINTER_BUFFER_SIZE + 1) 65)
        c5start).output
       = c5start.output ++ (List.replicate (PRINTER_BUFFER_SIZE + 1) 65).take
           PRINTER_BUFFER_SIZE ∧
     (acceptBytes (List.replicate (PRINTER_BUFFER_SIZE + 1) 65)
        c5start).buffer
       = (List.replicate (PRINTER_BUFFER_SIZE + 1) 65).drop
           PRINTER_BUFFER_SIZE) :=
  ⟨rfl, rfl,
    C5_buffer_full_single_flush (List.replicate (PRINTER_BUFFER_SIZE + 1) 65)
      c5start rfl rfl rfl
      (fun b hbm => by
        rw [List.eq_of_mem_replicate hbm]
        omega)
      (by rw [List.length_replicate])⟩

/-- C2 counterexample: establish a connection by accepting the printable
byte 65 from the initial state, then call the idle check
PRINTER_IDLE_CLOSE = 200 consecutive times: the connection is still
open, contradicting the claim that 200 ticks close it (the first tick
flushes the establishing byte and restarts the idle count). -/
theorem C2_counterexample :
    (ticks PRINTER_IDLE_CLOSE
        ((Printer_TransferByteTo true true 65 initialState).1)).bConnectedPrinter
      = true := by
  have h1 : (Printer_TransferByteTo true true 65 initialState).1
      = { buffer := [65], charsOnLine := 1, bConnectedPrinter := true,
          bPrinterFile := true, nIdleCount := 0, output := [], writes := 0 } := by
    rfl
  rw [h1, show PRINTER_IDLE_CLOSE = 1 + 199 by norm_num [PRINTER_IDLE_CLOSE],
      ticks_add 1 199]
  have h2 : ticks 1 ({ buffer := [65], charsOnLine := 1,
                       bConnectedPrinter := true, bPrinterFile := true,
                       nIdleCount := 0, output := [], writes := 0 } : PrinterState)
      = { buffer := [], charsOnLine := 1, bConnectedPrinter := true,
          bPrinterFile := true, nIdleCount := 0, output := [65],
          writes := 1 } := by rfl
  rw [h2, ticks_under_threshold 199 _ rfl (by norm_num [PRINTER_IDLE_CLOSE])]

/-- C2 (amended): after a connection is established by a valid byte,
closing takes PRINTER_IDLE_CLOSE + 1 = 201 consecutive idle checks with
no intervening acceptByte — the first check flushes the bytes buffered
by the establishing call and zeroes nIdleCount — and nIdleCount is 0
after the close; calling the idle check at most PRINTER_IDLE_CLOSE = 200
times leaves the connection open. -/
theorem C2_idle_close (b : Nat) (s : PrinterState)
    (hd : s.bConnectedPrinter = false) (hv : Printer_ValidByte b = true) :
    (∀ n, n ≤ PRINTER_IDLE_CLOSE →
       (ticks n ((Printer_TransferByteTo true true b s).1)).bConnectedPrinter
         = true) ∧
    (ticks (PRINTER_IDLE_CLOSE + 1)
        ((Printer_TransferByteTo true true b s).1)).bConnectedPrinter
      = false ∧
    (ticks (PRINTER_IDLE_CLOSE + 1)
        ((Printer_TransferByteTo true true b s).1)).nIdleCount = 0 := by
  obtain ⟨h1, h2, h3⟩ := connect_valid_props b s hd hv
  set s1 := (Printer_TransferByteTo true true b s).1 with hs1
  have htick : Printer_CheckIdleStatus s1
      = { s1 with buffer := [], output := s1.output ++ s1.buffer,
                  writes := s1.writes + 1, nIdleCount := 0 } :=
    tick_nonempty s1 h2 h3
  constructor
  · intro n hn
    match n with
    | 0 => exact h1
    | Nat.succ m =>
      rw [show ticks (m + 1) s1 = ticks m (Printer_CheckIdleStatus s1)
            from rfl,
          htick,
          ticks_under_threshold m _ rfl
            (by show (0 : Nat) + m < PRINTER_IDLE_CLOSE; omega)]
      exact h1
  · rw [show ticks (PRINTER_IDLE_CLOSE + 1) s1
          = ticks PRINTER_IDLE_CLOSE (Printer_CheckIdleStatus s1) from rfl,
        htick,
        show PRINTER_IDLE_CLOSE = 199 + 1 by norm_num [PRINTER_IDLE_CLOSE],
        ticks_add 199 1,
        ticks_under_threshold 199 _ rfl
          (by show (0 : Nat) + 199 < PRINTER_IDLE_CLOSE
              norm_num [PRINTER_IDLE_CLOSE]),
        show ∀ t : PrinterState, ticks 1 t = Printer_CheckIdleStatus t
          from fun t => rfl,
        tick_empty_close _ rfl
          (by show (0 : Nat) + 199 + 1 ≥ PRINTER_IDLE_CLOSE
              norm_num [PRINTER_IDLE_CLOSE])]
    exact ⟨rfl, rfl⟩

/-- C2 witness: the amended idle-close behavior evaluated for the
printable byte 65 accepted from the initial state: still connected after
200 idle checks, closed with nIdleCount 0 after 201. -/
theorem C2_idle_close_witness :
    (ticks PRINTER_IDLE_CLOSE
        ((Printer_TransferByteTo true true 65 initialState).1)).bConnectedPrinter
      = true ∧
    (ticks (PRINTER_IDLE_CLOSE + 1)
        ((Printer_TransferByteTo true true 65 initialState).1)).bConnectedPrinter
      = false ∧
    (ticks (PRINTER_IDLE_CLOSE + 1)
        ((Printer_TransferByteTo true true 65 initialState).1)).nIdleCount
      = 0 :=
  ⟨(C2_idle_close 65 initialState rfl (by decide)).1 PRINTER_IDLE_CLOSE
      le_rfl,
   (C2_idle_close 65 initialState rfl (by decide)).2.1,
   (C2_idle_close 65 initialState rfl (by decide)).2.2⟩

/-- C4: along every sequence of public operations from the initial state
— byte transfers with any byte, configuration flag and fopen outcome,
idle checks, flushes, closes and resets — the buffer never holds more
than PRINTER_BUFFER_SIZE = 2048 bytes. -/
theorem C4_buffer_never_exceeds_capacity (ops : List Op) :
    (runOps ops initialState).buffer.length ≤ PRINTER_BUFFER_SIZE :=
  (inv_runOps ops initialState inv_initial).2.2

/-- C10: in every state reachable from the initial state by the public
operations, being disconnected implies the buffer is empty. -/
theorem C10_disconnected_implies_empty (ops : List Op)
    (h : (runOps ops initialState).bConnectedPrinter = false) :
    (runOps ops initialState).buffer.length = 0 := by
  have hb := (inv_runOps ops initialState inv_initial).2.1 h
  simp [hb]

/-- C10 witness: accept one byte (establishing a connection and
buffering it) then close; the resulting state is disconnected with an
empty buffer. -/
theorem C10_disconnected_implies_empty_witness :
    (runOps [Op.accept true true 65, Op.close]
        initialState).bConnectedPrinter = false ∧
    (runOps [Op.accept true true 65, Op.close]
        initialState).buffer.length = 0 :=
  ⟨rfl, C10_disconnected_implies_empty [Op.accept true true 65, Op.close] rfl⟩

/-- C9: Printer_TransferByteTo never modifies nIdleCount, for every
enabled flag, fopen outcome, byte, and state — including the call that
establishes a new connection, so idle ticks accumulated while
disconnected carry over into a new connection. -/
theorem C9_acceptByte_frames_idleTicks (e o : Bool) (b : Nat) (s : PrinterState) :
    ((Printer_TransferByteTo e o b s).1).nIdleCount = s.nIdleCount := by
  unfold Printer_TransferByteTo Printer_OpenFile Printer_ResetCharsOnLine
    Printer_ResetInternalBuffer
  cases e
  · simp
  · simp
    split_ifs <;> simp [addByte_idle, addTab_idle]

/-- C8: Printer_CloseAllConnections is idempotent: applying it twice to
any state yields exactly the state obtained by applying it once (so in
particular closing while already disconnected changes nothing). -/
theorem C8_close_idempotent (s : PrinterState) :
    Printer_CloseAllConnections (Printer_CloseAllConnections s)
      = Printer_CloseAllConnections s := by
  unfold Printer_CloseAllConnections Printer_CloseFile
    Printer_EmptyInternalBuffer Printer_EmptyFile Printer_ResetInternalBuffer
  split_ifs <;> simp_all

end Printer
